import Mathlib

/- Shallow embedding of the HeyGenAvatars repository, a client-side avatar
   gallery.  The embedding covers the catalog client (HeyGenService with its
   mock fallback generators) and the view-state orchestrator of the
   AvatarGallery component (its handlers, the group-change effect, and the
   resolution of avatar and group fetches).  JavaScript primitives that the
   source relies on (Array.prototype.slice, String.prototype.replace,
   String.prototype.includes, parseInt, Math.ceil, the logical-or default)
   are modelled explicitly below. -/

namespace HeyGen

/- ===== Models of the JavaScript primitives used by the source ===== -/

/-- Decimal digit value of a character, none when the character is not a
digit.  Used by the parseInt model. -/
def decVal (c : Char) : Option Nat :=
  if '0' ≤ c ∧ c ≤ '9' then some (c.toNat - 48) else none

/-- Hexadecimal digit value of a character, none when the character is not a
hex digit.  Used by the parseInt model for 0x-led inputs. -/
def hexVal (c : Char) : Option Nat :=
  if '0' ≤ c ∧ c ≤ '9' then some (c.toNat - 48)
  else if 'a' ≤ c ∧ c ≤ 'f' then some (c.toNat - 87)
  else if 'A' ≤ c ∧ c ≤ 'F' then some (c.toNat - 55)
  else none

/-- Longest run of leading digits of a character list, read through the
supplied digit-value function. -/
def takeDigits (f : Char → Option Nat) : List Char → List Nat
  | [] => []
  | c :: rest =>
    match f c with
    | some d => d :: takeDigits f rest
    | none => []

/-- Value of a digit list in the given base, most significant digit first. -/
def digitsToNat (base : Nat) (ds : List Nat) : Nat :=
  ds.foldl (fun a d => a * base + d) 0

/-- Whether a character list starts with the hexadecimal marker 0x or 0X,
as recognised by parseInt when no radix argument is given. -/
def hexStart : List Char → Bool
  | '0' :: 'x' :: _ => true
  | '0' :: 'X' :: _ => true
  | _ => false

/-- Unsigned part of the parseInt model: a 0x or 0X marker selects base 16,
otherwise base 10; none when no digit follows, matching the NaN result of
parseInt on such inputs. -/
def parseUnsignedJS (t : List Char) : Option Nat :=
  if hexStart t then
    match takeDigits hexVal (t.drop 2) with
    | [] => none
    | ds => some (digitsToNat 16 ds)
  else
    match takeDigits decVal t with
    | [] => none
    | ds => some (digitsToNat 10 ds)

/-- Model of parseInt(string): skip leading whitespace, read one optional
sign, then the longest run of digits; none models NaN. -/
def parseIntJS (s : List Char) : Option Int :=
  match s.dropWhile Char.isWhitespace with
  | '-' :: r => (parseUnsignedJS r).map (fun n => -(n : Int))
  | '+' :: r => (parseUnsignedJS r).map (fun n => (n : Int))
  | r => (parseUnsignedJS r).map (fun n => (n : Int))

/-- Model of the logical-or default in parseInt(x) || 1: NaN and zero both
fall through to the default. -/
def jsOrDefault (x : Option Int) (d : Int) : Int :=
  match x with
  | none => d
  | some n => if n = 0 then d else n

/-- Model of String.prototype.replace with a plain string pattern: only the
first occurrence is removed (the source always replaces with the empty
string, so the model drops the matched pattern). -/
def replaceFirst : List Char → List Char → List Char
  | [], _ => []
  | c :: rest, pat =>
    if pat.isPrefixOf (c :: rest) then (c :: rest).drop pat.length
    else c :: replaceFirst rest pat

/-- Model of String.prototype.includes: the pattern occurs somewhere in the
string. -/
def jsIncludes : List Char → List Char → Bool
  | [], pat => pat.isEmpty
  | c :: rest, pat => pat.isPrefixOf (c :: rest) || jsIncludes rest pat

/-- Index normalisation of Array.prototype.slice: a negative index counts
from the end of the array and both directions clamp to the array bounds. -/
def jsSliceIndex (len : Nat) (i : Int) : Nat :=
  if i < 0 then (max ((len : Int) + i) 0).toNat
  else min i.toNat len

/-- Model of Array.prototype.slice(start, end): the elements from the
normalised start index up to, but excluding, the normalised end index. -/
def jsSlice (l : List α) (s e : Int) : List α :=
  (l.take (jsSliceIndex l.length e)).drop (jsSliceIndex l.length s)

/-- Model of Math.ceil(a / b) on non-negative integers with positive b, as
used for the page count of the mock avatar data. -/
def jsCeilDiv (a b : Nat) : Nat :=
  (a + b - 1) / b

/- ===== Data model (shapes taken from the mock literals and usage) ===== -/

/-- Avatar record as produced by the avatars endpoint and the mock pool. -/
structure Avatar where
  avatar_id : String
  avatar_name : String
  gender : String
  preview_image_url : String
  preview_video_url : String
  premium : Bool
  type : Option String
  tags : Option (List String)
  default_voice_id : Option String
deriving DecidableEq

/-- Payload of the avatars endpoint: one page of avatars with pagination
metadata. -/
structure AvatarData where
  avatars : List Avatar
  count : Nat
  total : Nat
  page : Nat
  page_size : Nat
  total_pages : Nat
deriving DecidableEq

/-- Wire shape of an avatars response: an error field and a data field. -/
structure AvatarResponse where
  error : Option String
  data : AvatarData
deriving DecidableEq

/-- Avatar group record as produced by the group endpoint and the mock
group list. -/
structure AvatarGroup where
  avatar_group_id : String
  title : String
  description : Option String
  avatar_count : Nat
  is_public : Bool
  created_at : String
  updated_at : String
  preview_image_url : Option String
deriving DecidableEq

/-- Payload of the group-list endpoint. -/
structure AvatarGroupData where
  avatar_groups : List AvatarGroup
  count : Nat
  total : Nat
deriving DecidableEq

/-- Wire shape of a group-list response. -/
structure AvatarGroupResponse where
  error : Option String
  data : AvatarGroupData
deriving DecidableEq

/-- Voice option carried by an avatar detail record. -/
structure VoiceOption where
  voice_id : String
  voice_name : String
  language : String
  gender : String
  preview_audio_url : String
deriving DecidableEq

/-- Usage statistics carried by an avatar detail record. -/
structure UsageStats where
  total_videos : Nat
  total_duration : Nat
deriving DecidableEq

/-- Detail record for a single avatar. -/
structure AvatarDetails where
  avatar_id : String
  avatar_name : String
  gender : String
  preview_image_url : String
  preview_video_url : String
  premium : Bool
  type : Option String
  tags : Option (List String)
  default_voice_id : Option String
  description : Option String
  created_at : String
  updated_at : String
  status : String
  languages : List String
  voices : List VoiceOption
  usage_stats : UsageStats
deriving DecidableEq

/-- Wire shape of a detail response. -/
structure AvatarDetailsResponse where
  error : Option String
  data : AvatarDetails
deriving DecidableEq

/-- Pagination parameters sent to the avatars endpoint. -/
structure PaginationParams where
  page : Nat
  page_size : Nat
deriving DecidableEq

/- ===== HeyGenService: mock fallback generators ===== -/

/-- First fixed entry of the mock avatar pool. -/
def abigailExpressive : Avatar :=
  { avatar_id := "Abigail_expressive_2024112501"
  , avatar_name := "Abigail (Upper Body)"
  , gender := "female"
  , preview_image_url := "https://files2.heygen.ai/avatar/v3/1ad51ab9fee24ae88af067206e14a1d8_44250/preview_target.webp"
  , preview_video_url := "https://files2.heygen.ai/avatar/v3/1ad51ab9fee24ae88af067206e14a1d8_44250/preview_video_target.mp4"
  , premium := false
  , type := none
  , tags := none
  , default_voice_id := none }

/-- Second fixed entry of the mock avatar pool. -/
def abigailOfficeFront : Avatar :=
  { avatar_id := "Abigail_standing_office_front"
  , avatar_name := "Abigail Office Front"
  , gender := "female"
  , preview_image_url := "https://files2.heygen.ai/avatar/v3/463208b6cad140d2b263535826838e3a_39240/preview_target.webp"
  , preview_video_url := "https://files2.heygen.ai/avatar/v3/463208b6cad140d2b263535826838e3a_39240/preview_video_target.mp4"
  , premium := false
  , type := none
  , tags := none
  , default_voice_id := none }

/-- Third fixed entry of the mock avatar pool. -/
def abigailOfficeSide : Avatar :=
  { avatar_id := "Abigail_standing_office_side"
  , avatar_name := "Abigail Office Side"
  , gender := "female"
  , preview_image_url := "https://files2.heygen.ai/avatar/v3/9886d46db7f24260bb219c756ca0d759_39250/preview_target.webp"
  , preview_video_url := "https://files2.heygen.ai/avatar/v3/9886d46db7f24260bb219c756ca0d759_39250/preview_video_target.mp4"
  , premium := false
  , type := none
  , tags := none
  , default_voice_id := none }

/-- Generated entry number i of the mock avatar pool, mirroring the
Array.from of length 50 in the source: alternating gender and every fifth
entry premium. -/
def mockGeneratedAvatar (i : Nat) : Avatar :=
  { avatar_id := "mock_avatar_" ++ toString (i + 4)
  , avatar_name := "Avatar " ++ toString (i + 4)
  , gender := if i % 2 = 0 then "male" else "female"
  , preview_image_url := "https://files2.heygen.ai/avatar/v3/1ad51ab9fee24ae88af067206e14a1d8_44250/preview_target.webp"
  , preview_video_url := "https://files2.heygen.ai/avatar/v3/1ad51ab9fee24ae88af067206e14a1d8_44250/preview_video_target.mp4"
  , premium := i % 5 == 0
  , type := none
  , tags := none
  , default_voice_id := none }

/-- Fixed candidate pool of the mock avatars path: three named entries
followed by fifty generated ones. -/
def mockAvatarPool : List Avatar :=
  [abigailExpressive, abigailOfficeFront, abigailOfficeSide]
    ++ (List.range 50).map mockGeneratedAvatar

/-- Character list left after removing the first occurrence of the pattern
group_ from a group identifier, as groupId.replace does in the source. -/
def strippedGroupSuffix (gid : String) : List Char :=
  replaceFirst gid.data "group_".data

/-- Group ordinal used for mock group slicing: parseInt of the stripped
identifier with a logical-or default of 1. -/
def groupOrdinal (gid : String) : Int :=
  jsOrDefault (parseIntJS (strippedGroupSuffix gid)) 1

/-- Group narrowing of the mock avatars path: a truthy group identifier
other than all selects a fifteen-element window of the pool positioned by
the group ordinal. -/
def narrowPool (groupId : Option String) : List Avatar :=
  match groupId with
  | some gid =>
    if gid ≠ "" ∧ gid ≠ "all" then
      jsSlice mockAvatarPool ((groupOrdinal gid - 1) * 15)
        ((groupOrdinal gid - 1) * 15 + 15)
    else mockAvatarPool
  | none => mockAvatarPool

/-- Mock avatars fallback: narrows the pool by group, then slices out the
requested page and reports pagination metadata over the narrowed pool. -/
def getMockAvatarData (params : PaginationParams) (groupId : Option String) :
    AvatarResponse :=
  let filteredAvatars := narrowPool groupId
  let startIndex : Int := ((params.page : Int) - 1) * (params.page_size : Int)
  let endIndex : Int := startIndex + (params.page_size : Int)
  let paginatedAvatars := jsSlice filteredAvatars startIndex endIndex
  let totalPages := jsCeilDiv filteredAvatars.length params.page_size
  { error := none
  , data :=
    { avatars := paginatedAvatars
    , count := paginatedAvatars.length
    , total := filteredAvatars.length
    , page := params.page
    , page_size := params.page_size
    , total_pages := totalPages } }

/-- Fixed mock group list used as the group fallback. -/
def mockGroups : List AvatarGroup :=
  [ { avatar_group_id := "group_1"
    , title := "Business Professionals"
    , description := some "Professional avatars for corporate presentations and business content"
    , avatar_count := 15
    , is_public := true
    , created_at := "2024-01-15T10:00:00Z"
    , updated_at := "2024-01-20T14:30:00Z"
    , preview_image_url := some "https://files2.heygen.ai/avatar/v3/1ad51ab9fee24ae88af067206e14a1d8_44250/preview_target.webp" }
  , { avatar_group_id := "group_2"
    , title := "Casual & Friendly"
    , description := some "Approachable avatars perfect for educational content and casual presentations"
    , avatar_count := 12
    , is_public := true
    , created_at := "2024-01-10T09:15:00Z"
    , updated_at := "2024-01-18T16:45:00Z"
    , preview_image_url := some "https://files2.heygen.ai/avatar/v3/463208b6cad140d2b263535826838e3a_39240/preview_target.webp" }
  , { avatar_group_id := "group_3"
    , title := "Healthcare & Medical"
    , description := some "Professional medical avatars for healthcare communications"
    , avatar_count := 8
    , is_public := true
    , created_at := "2024-01-12T11:20:00Z"
    , updated_at := "2024-01-22T13:10:00Z"
    , preview_image_url := some "https://files2.heygen.ai/avatar/v3/9886d46db7f24260bb219c756ca0d759_39250/preview_target.webp" }
  , { avatar_group_id := "group_4"
    , title := "Creative & Artistic"
    , description := some "Unique and creative avatars for artistic and innovative content"
    , avatar_count := 10
    , is_public := false
    , created_at := "2024-01-08T15:30:00Z"
    , updated_at := "2024-01-25T10:20:00Z"
    , preview_image_url := none } ]

/-- Mock group fallback: the fixed group list with its counts. -/
def getMockGroupData : AvatarGroupResponse :=
  { error := none
  , data :=
    { avatar_groups := mockGroups
    , count := mockGroups.length
    , total := mockGroups.length } }

/-- Mock detail fallback: a substitute detail record seeded from the
requested avatar identifier. -/
def getMockAvatarDetails (avatarId : String) : AvatarDetailsResponse :=
  { error := none
  , data :=
    { avatar_id := avatarId
    , avatar_name :=
        if jsIncludes avatarId.data "Abigail".data then "Abigail Professional"
        else "Professional Avatar"
    , gender :=
        if jsIncludes avatarId.data "female".data
            || jsIncludes avatarId.data "Abigail".data then "female"
        else "male"
    , preview_image_url := "https://files2.heygen.ai/avatar/v3/1ad51ab9fee24ae88af067206e14a1d8_44250/preview_target.webp"
    , preview_video_url := "https://files2.heygen.ai/avatar/v3/1ad51ab9fee24ae88af067206e14a1d8_44250/preview_video_target.mp4"
    , premium := false
    , type := some "professional"
    , tags := some ["business", "professional", "corporate"]
    , default_voice_id := some "voice_001"
    , description := some "A professional avatar perfect for business presentations and corporate communications. Features natural expressions and professional attire."
    , created_at := "2024-01-15T10:00:00Z"
    , updated_at := "2024-01-20T14:30:00Z"
    , status := "active"
    , languages := ["en-US", "en-GB", "es-ES", "fr-FR"]
    , voices :=
      [ { voice_id := "voice_001"
        , voice_name := "Professional Female"
        , language := "en-US"
        , gender := "female"
        , preview_audio_url := "https://example.com/voice_preview.mp3" }
      , { voice_id := "voice_002"
        , voice_name := "Business Casual"
        , language := "en-US"
        , gender := "female"
        , preview_audio_url := "https://example.com/voice_preview2.mp3" } ]
    , usage_stats := { total_videos := 1250, total_duration := 45600 } } }

/- ===== HeyGenService: fetch operations over an explicit transport ===== -/

/-- Outcome of one transport attempt: a network failure, a response with a
non-success HTTP status (response.ok false, which the source turns into a
thrown error), or a parsed successful payload. -/
inductive Transport (α : Type) where
  | networkError (msg : String)
  | httpError (status : Nat)
  | ok (response : α)
deriving DecidableEq

/-- Whether a transport outcome lands in the catch block of the source. -/
def Transport.isFailure : Transport α → Bool
  | Transport.ok _ => false
  | _ => true

/-- HeyGenService.fetchAvatars: the parsed payload on transport success,
the mock avatar data on any transport failure. -/
def fetchAvatars (t : Transport AvatarResponse) (params : PaginationParams)
    (groupId : Option String) : AvatarResponse :=
  match t with
  | Transport.ok response => response
  | _ => getMockAvatarData params groupId

/-- HeyGenService.fetchAvatarGroups: the parsed payload on transport
success, the mock group data on any transport failure.  The includePublic
argument only shapes the request query. -/
def fetchAvatarGroups (t : Transport AvatarGroupResponse)
    (_includePublic : Bool) : AvatarGroupResponse :=
  match t with
  | Transport.ok response => response
  | _ => getMockGroupData

/-- HeyGenService.fetchAvatarDetails: the parsed payload on transport
success, the mock detail record on any transport failure. -/
def fetchAvatarDetails (t : Transport AvatarDetailsResponse)
    (avatarId : String) : AvatarDetailsResponse :=
  match t with
  | Transport.ok response => response
  | _ => getMockAvatarDetails avatarId

/- ===== AvatarGallery: view-state orchestrator ===== -/

/-- Filter state of the gallery: gender is one of all, male or female. -/
structure FilterOptions where
  gender : String
  premiumOnly : Bool
  selectedGroup : Option String
deriving DecidableEq

/-- View mode of the gallery. -/
inductive ViewMode where
  | avatars
  | groups
deriving DecidableEq

/-- State owned by the AvatarGallery component: data, loading flags, error,
view selection, filters and pagination. -/
structure GalleryState where
  avatars : List Avatar
  groups : List AvatarGroup
  loading : Bool
  groupsLoading : Bool
  error : Option String
  viewMode : ViewMode
  selectedAvatarId : Option String
  filters : FilterOptions
  currentPage : Nat
  totalPages : Nat
  totalItems : Nat
  pageSize : Nat
deriving DecidableEq

/-- One avatars fetch dispatched by the component: the requested page and
page size, whether the continuation resets to page one, and the group the
request is scoped to. -/
structure AvatarsFetchRequest where
  page : Nat
  page_size : Nat
  resetPage : Bool
  groupId : Option String
deriving DecidableEq

/-- Synchronous head of the fetchAvatars callback: sets loading, clears the
error, and dispatches one request whose page is one when resetting and the
argument page otherwise, scoped to the currently selected group. -/
def fetchAvatarsStart (s : GalleryState) (page : Nat) (resetPage : Bool) :
    GalleryState × AvatarsFetchRequest :=
  ({ s with loading := true, error := none }
  , { page := if resetPage then 1 else page
    , page_size := s.pageSize
    , resetPage := resetPage
    , groupId := s.filters.selectedGroup })

/-- Continuation of the fetchAvatars callback once the service response is
available: a response with a non-null error field is rethrown and caught,
recording the error message and leaving the data untouched; otherwise the
page payload replaces the avatar list and pagination state.  The returned
request list is the set of follow-up fetches the continuation dispatches,
always empty in the source. -/
def fetchAvatarsResolve (s : GalleryState) (req : AvatarsFetchRequest)
    (response : AvatarResponse) : GalleryState × List AvatarsFetchRequest :=
  match response.error with
  | some _ =>
    ({ s with error := some "Failed to fetch avatars from API"
            , loading := false }, [])
  | none =>
    ({ s with avatars := response.data.avatars
            , totalPages := response.data.total_pages
            , totalItems := response.data.total
            , currentPage := if req.resetPage then 1 else response.data.page
            , loading := false }, [])

/-- Synchronous head of the fetchGroups callback. -/
def fetchGroupsStart (s : GalleryState) : GalleryState :=
  { s with groupsLoading := true }

/-- Continuation of the fetchGroups callback: a response with a non-null
error field replaces the group list with the empty list and records nothing
else; otherwise the payload group list is stored.  The returned request
list is the set of follow-up fetches, always empty in the source. -/
def fetchGroupsResolve (s : GalleryState) (response : AvatarGroupResponse) :
    GalleryState × List AvatarsFetchRequest :=
  match response.error with
  | some _ => ({ s with groups := [], groupsLoading := false }, [])
  | none =>
    ({ s with groups := response.data.avatar_groups
            , groupsLoading := false }, [])

/-- Filter replacement together with the effect keyed on the selected
group: the effect reruns exactly when the selected group changed, and its
body dispatches a page-one resetting fetch only while the groups are not
loading. -/
def setFiltersStep (s : GalleryState) (newFilters : FilterOptions) :
    GalleryState × List AvatarsFetchRequest :=
  let s1 := { s with filters := newFilters }
  if newFilters.selectedGroup ≠ s.filters.selectedGroup
      ∧ s1.groupsLoading = false then
    let started := fetchAvatarsStart s1 1 true
    (started.1, [started.2])
  else (s1, [])

/-- The handleFiltersChange handler forwards the new filter state. -/
def handleFiltersChange (s : GalleryState) (newFilters : FilterOptions) :
    GalleryState × List AvatarsFetchRequest :=
  setFiltersStep s newFilters

/-- The handleGroupChange handler updates only the selected group. -/
def handleGroupChange (s : GalleryState) (groupId : Option String) :
    GalleryState × List AvatarsFetchRequest :=
  setFiltersStep s { s.filters with selectedGroup := groupId }

/-- The handleGroupSelect handler updates the selected group from a group
card and switches back to the avatars view. -/
def handleGroupSelect (s : GalleryState) (groupId : String) :
    GalleryState × List AvatarsFetchRequest :=
  let stepped := setFiltersStep s { s.filters with selectedGroup := some groupId }
  ({ stepped.1 with viewMode := ViewMode.avatars }, stepped.2)

/-- The handlePageChange handler: dispatches a fetch for the requested page
when it differs from the current page and lies between one and the page
count, and does nothing otherwise. -/
def handlePageChange (s : GalleryState) (page : Nat) :
    GalleryState × List AvatarsFetchRequest :=
  if page ≠ s.currentPage ∧ 1 ≤ page ∧ page ≤ s.totalPages then
    let started := fetchAvatarsStart s page false
    (started.1, [started.2])
  else (s, [])

/-- Derived visible avatar list: keeps an avatar unless the gender filter
is narrow and disagrees, or the premium filter is on and the avatar is not
premium. -/
def filteredAvatars (avatars : List Avatar) (filters : FilterOptions) :
    List Avatar :=
  avatars.filter (fun avatar =>
    if filters.gender ≠ "all" ∧ avatar.gender ≠ filters.gender then false
    else if filters.premiumOnly ∧ avatar.premium = false then false
    else true)

/- ===== Sample values used to instantiate theorems ===== -/

/-- Sample filter state: no narrowing at all. -/
def sampleFilters : FilterOptions :=
  { gender := "all", premiumOnly := false, selectedGroup := none }

/-- Sample loaded gallery state: groups loaded, page one of three. -/
def sampleState : GalleryState :=
  { avatars := [abigailExpressive]
  , groups := mockGroups
  , loading := false
  , groupsLoading := false
  , error := none
  , viewMode := ViewMode.avatars
  , selectedAvatarId := none
  , filters := sampleFilters
  , currentPage := 1
  , totalPages := 3
  , totalItems := 53
  , pageSize := 20 }

/-- Sample gallery state whose groups fetch is still in flight. -/
def loadingGroupsState : GalleryState :=
  { sampleState with groupsLoading := true, currentPage := 2 }

/- ===== Helper lemmas ===== -/

theorem jsSliceIndex_natCast (len a : Nat) :
    jsSliceIndex len (a : Int) = min a len := by
  unfold jsSliceIndex
  rw [if_neg (by omega : ¬ ((a : Int) < 0))]
  simp

theorem jsSlice_natCast (l : List α) (a b : Nat) :
    jsSlice l (a : Int) (b : Int) = (l.drop a).take (b - a) := by
  unfold jsSlice
  rw [jsSliceIndex_natCast, jsSliceIndex_natCast]
  have htake : l.take (min b l.length) = l.take b := by
    rcases Nat.le_total b l.length with hb | hb
    · rw [Nat.min_eq_left hb]
    · rw [Nat.min_eq_right hb, List.take_of_length_le (Nat.le_refl _),
        List.take_of_length_le hb]
  rw [htake]
  rcases Nat.le_total a l.length with ha | ha
  · rw [Nat.min_eq_left ha, List.drop_take]
  · rw [Nat.min_eq_right ha]
    have h1 : (l.take b).drop l.length = [] :=
      List.drop_eq_nil_of_le (by simp)
    have h2 : l.drop a = [] := List.drop_eq_nil_of_le ha
    rw [h1, h2]
    simp

theorem fetchAvatars_failure_eq (t : Transport AvatarResponse)
    (p : PaginationParams) (g : Option String) (h : t.isFailure = true) :
    fetchAvatars t p g = getMockAvatarData p g := by
  cases t <;> simp_all [Transport.isFailure, fetchAvatars]

theorem fetchAvatarGroups_failure_eq (t : Transport AvatarGroupResponse)
    (b : Bool) (h : t.isFailure = true) :
    fetchAvatarGroups t b = getMockGroupData := by
  cases t <;> simp_all [Transport.isFailure, fetchAvatarGroups]

theorem fetchAvatarDetails_failure_eq (t : Transport AvatarDetailsResponse)
    (aid : String) (h : t.isFailure = true) :
    fetchAvatarDetails t aid = getMockAvatarDetails aid := by
  cases t <;> simp_all [Transport.isFailure, fetchAvatarDetails]

/- ===== Claim theorems ===== -/

/-- C1: every catalog client operation absorbs transport failures: on a
network error, a thrown exception, or a non-success HTTP status, the
operation returns the synthesized mock result (mock avatars page, mock
group list, mock detail record) instead of propagating the failure, and
each mock result carries a null error field. -/
theorem fetch_operations_absorb_transport_failures
    (t1 : Transport AvatarResponse) (t2 : Transport AvatarGroupResponse)
    (t3 : Transport AvatarDetailsResponse) (p : PaginationParams)
    (g : Option String) (b : Bool) (aid : String)
    (h1 : t1.isFailure = true) (h2 : t2.isFailure = true)
    (h3 : t3.isFailure = true) :
    fetchAvatars t1 p g = getMockAvatarData p g
      ∧ (fetchAvatars t1 p g).error = none
      ∧ fetchAvatarGroups t2 b = getMockGroupData
      ∧ (fetchAvatarGroups t2 b).error = none
      ∧ fetchAvatarDetails t3 aid = getMockAvatarDetails aid
      ∧ (fetchAvatarDetails t3 aid).error = none := by
  refine ⟨fetchAvatars_failure_eq t1 p g h1, ?_,
    fetchAvatarGroups_failure_eq t2 b h2, ?_,
    fetchAvatarDetails_failure_eq t3 aid h3, ?_⟩
  · rw [fetchAvatars_failure_eq t1 p g h1]
    rfl
  · rw [fetchAvatarGroups_failure_eq t2 b h2]
    rfl
  · rw [fetchAvatarDetails_failure_eq t3 aid h3]
    rfl

/-- Witness for C1 at concrete failing transports. -/
theorem fetch_operations_absorb_transport_failures_witness :
    fetchAvatars (Transport.networkError "offline") { page := 1, page_size := 20 } none
        = getMockAvatarData { page := 1, page_size := 20 } none
      ∧ fetchAvatarGroups (Transport.httpError 500) false = getMockGroupData
      ∧ fetchAvatarDetails (Transport.networkError "offline") "Abigail_standing_office_front"
        = getMockAvatarDetails "Abigail_standing_office_front" := by
  have h := fetch_operations_absorb_transport_failures
    (Transport.networkError "offline") (Transport.httpError 500)
    (Transport.networkError "offline") { page := 1, page_size := 20 } none false
    "Abigail_standing_office_front" rfl rfl rfl
  exact ⟨h.1, h.2.2.1, h.2.2.2.2.1⟩

/-- C3: the derived visible avatar computation is a pure function of the
avatar list and the gender and premium filters: an avatar is in the result
exactly when it is in the input list, the gender filter is all or agrees
with the avatar, and the premium filter is off or the avatar is premium. -/
theorem filtered_avatars_membership (avatars : List Avatar)
    (filters : FilterOptions) (a : Avatar) :
    a ∈ filteredAvatars avatars filters
      ↔ a ∈ avatars
        ∧ (filters.gender = "all" ∨ a.gender = filters.gender)
        ∧ (filters.premiumOnly = true → a.premium = true) := by
  have hpred : ∀ x : Avatar,
      ((if filters.gender ≠ "all" ∧ x.gender ≠ filters.gender then false
        else if filters.premiumOnly ∧ x.premium = false then false
        else true) = true)
        ↔ ((filters.gender = "all" ∨ x.gender = filters.gender)
            ∧ (filters.premiumOnly = true → x.premium = true)) := by
    intro x
    split_ifs with hg hp
    · simp only [Bool.false_eq_true, false_iff]
      intro hc
      rcases hg with ⟨hg1, hg2⟩
      rcases hc.1 with h | h
      · exact hg1 h
      · exact hg2 h
    · simp only [Bool.false_eq_true, false_iff]
      intro hc
      exact absurd (hc.2 hp.1) (by simp [hp.2])
    · simp only [true_iff]
      push_neg at hg hp
      constructor
      · by_cases hall : filters.gender = "all"
        · exact Or.inl hall
        · exact Or.inr (hg hall)
      · intro hprem
        have hne := hp hprem
        simpa using hne
  unfold filteredAvatars
  rw [List.mem_filter, hpred a]

/-- C5: fallback determinism: any two failed live fetches with identical
arguments produce identical substitute results, for avatar pages, for the
group list, and for detail records. -/
theorem fallback_results_deterministic
    (t1 t1' : Transport AvatarResponse)
    (t2 t2' : Transport AvatarGroupResponse)
    (t3 t3' : Transport AvatarDetailsResponse) (p : PaginationParams)
    (g : Option String) (b : Bool) (aid : String)
    (h1 : t1.isFailure = true) (h1' : t1'.isFailure = true)
    (h2 : t2.isFailure = true) (h2' : t2'.isFailure = true)
    (h3 : t3.isFailure = true) (h3' : t3'.isFailure = true) :
    fetchAvatars t1 p g = fetchAvatars t1' p g
      ∧ fetchAvatarGroups t2 b = fetchAvatarGroups t2' b
      ∧ fetchAvatarDetails t3 aid = fetchAvatarDetails t3' aid := by
  refine ⟨?_, ?_, ?_⟩
  · rw [fetchAvatars_failure_eq t1 p g h1, fetchAvatars_failure_eq t1' p g h1']
  · rw [fetchAvatarGroups_failure_eq t2 b h2,
      fetchAvatarGroups_failure_eq t2' b h2']
  · rw [fetchAvatarDetails_failure_eq t3 aid h3,
      fetchAvatarDetails_failure_eq t3' aid h3']

/-- Witness for C5 at two distinct concrete failing transports. -/
theorem fallback_results_deterministic_witness :
    fetchAvatars (Transport.networkError "offline") { page := 2, page_size := 20 } (some "group_2")
        = fetchAvatars (Transport.httpError 503) { page := 2, page_size := 20 } (some "group_2")
      ∧ fetchAvatarGroups (Transport.networkError "offline") false
        = fetchAvatarGroups (Transport.httpError 503) false
      ∧ fetchAvatarDetails (Transport.networkError "offline") "mock_avatar_7"
        = fetchAvatarDetails (Transport.httpError 503) "mock_avatar_7" := by
  exact fallback_results_deterministic
    (Transport.networkError "offline") (Transport.httpError 503)
    (Transport.networkError "offline") (Transport.httpError 503)
    (Transport.networkError "offline") (Transport.httpError 503)
    { page := 2, page_size := 20 } (some "group_2") false "mock_avatar_7"
    rfl rfl rfl rfl rfl rfl

/-- C6: a page change dispatches exactly one avatars fetch for the
requested page scoped to the currently selected group when the page is new
and within range, and otherwise leaves the state untouched and dispatches
nothing. -/
theorem page_change_guard (s : GalleryState) (n : Nat) :
    ((n ≠ s.currentPage ∧ 1 ≤ n ∧ n ≤ s.totalPages) →
      handlePageChange s n
        = ({ s with loading := true, error := none }
          , [{ page := n, page_size := s.pageSize, resetPage := false
             , groupId := s.filters.selectedGroup }]))
    ∧ (¬ (n ≠ s.currentPage ∧ 1 ≤ n ∧ n ≤ s.totalPages) →
      handlePageChange s n = (s, [])) := by
  constructor
  · intro h
    unfold handlePageChange fetchAvatarsStart
    rw [if_pos h]
    rfl
  · intro h
    unfold handlePageChange
    rw [if_neg h]

/-- Witness for C6: on the sample state page two dispatches one fetch and
page five, beyond the three pages, is ignored. -/
theorem page_change_guard_witness :
    handlePageChange sampleState 2
      = ({ sampleState with loading := true, error := none }
        , [{ page := 2, page_size := sampleState.pageSize, resetPage := false
           , groupId := sampleState.filters.selectedGroup }])
    ∧ handlePageChange sampleState 5 = (sampleState, []) := by
  constructor
  · exact (page_change_guard sampleState 2).1 (by decide)
  · exact (page_change_guard sampleState 5).2 (by decide)

/-- C8: a filter change that keeps the selected group unchanged dispatches
no fetch and changes nothing but the stored filter state, so the avatar
list, the pagination state and the loading flags are untouched. -/
theorem gender_premium_change_no_refetch (s : GalleryState)
    (newFilters : FilterOptions)
    (h : newFilters.selectedGroup = s.filters.selectedGroup) :
    handleFiltersChange s newFilters = ({ s with filters := newFilters }, []) := by
  unfold handleFiltersChange setFiltersStep
  rw [if_neg (fun hc => hc.1 h)]

/-- Witness for C8: switching to female premium only on the sample state
keeps everything but the filters and dispatches nothing. -/
theorem gender_premium_change_no_refetch_witness :
    handleFiltersChange sampleState
        { gender := "female", premiumOnly := true, selectedGroup := none }
      = ({ sampleState with filters :=
            { gender := "female", premiumOnly := true, selectedGroup := none } }
        , []) := by
  exact gender_premium_change_no_refetch sampleState
    { gender := "female", premiumOnly := true, selectedGroup := none }
    (by decide)

/-- C2 counterexample: a group identifier whose window lies beyond the
candidate pool yields a fallback result whose total is zero and whose page
count is zero as well, so the reported page count has no floor of one. -/
theorem total_pages_floor_counterexample :
    (getMockAvatarData { page := 1, page_size := 20 } (some "group_5")).data.total = 0
      ∧ (getMockAvatarData { page := 1, page_size := 20 } (some "group_5")).data.total_pages = 0 := by
  exact ⟨rfl, rfl⟩

/-- C2 amended: for every fallback result with a positive page size the
reported page count equals the ceiling of the total divided by the page
size, with no floor of one: it is the least number of pages covering the
total, and it is zero exactly when the total is zero. -/
theorem total_pages_ceil_no_floor (p : PaginationParams) (g : Option String)
    (hs : 0 < p.page_size) :
    (getMockAvatarData p g).data.total_pages
        = (getMockAvatarData p g).data.total ⌈/⌉ p.page_size
      ∧ (getMockAvatarData p g).data.total
          ≤ (getMockAvatarData p g).data.total_pages * p.page_size
      ∧ (∀ m : Nat, (getMockAvatarData p g).data.total ≤ m * p.page_size →
          (getMockAvatarData p g).data.total_pages ≤ m)
      ∧ ((getMockAvatarData p g).data.total = 0 →
          (getMockAvatarData p g).data.total_pages = 0) := by
  have hpages : (getMockAvatarData p g).data.total_pages
      = jsCeilDiv (narrowPool g).length p.page_size := rfl
  have htot : (getMockAvatarData p g).data.total = (narrowPool g).length := rfl
  have hceil : jsCeilDiv (narrowPool g).length p.page_size
      = (narrowPool g).length ⌈/⌉ p.page_size :=
    (Nat.ceilDiv_eq_add_pred_div (narrowPool g).length p.page_size).symm
  rw [hpages, htot, hceil]
  refine ⟨rfl, ?_, ?_, ?_⟩
  · have hle := le_smul_ceilDiv (b := (narrowPool g).length) hs
    rw [smul_eq_mul] at hle
    rwa [Nat.mul_comm] at hle
  · intro m hm
    exact (ceilDiv_le_iff_le_mul hs).mpr (by rwa [Nat.mul_comm] at hm)
  · intro h0
    rw [h0]
    simp

/-- Witness for the amended C2 at a concrete in-range request. -/
theorem total_pages_ceil_no_floor_witness :
    (getMockAvatarData { page := 1, page_size := 20 } none).data.total_pages
      = (getMockAvatarData { page := 1, page_size := 20 } none).data.total ⌈/⌉ 20 := by
  exact (total_pages_ceil_no_floor { page := 1, page_size := 20 } none
    (by decide)).1

/-- C9: group narrowing of the fallback avatars path: a truthy group
identifier other than all whose stripped suffix does not parse to a
non-zero integer narrows the pool to the first fifteen entries, the window
of group ordinal one; when the stripped suffix parses to a positive k the
window of fifteen pool entries starting at index fifteen times k minus one
is used. -/
theorem mock_group_narrowing (gid : String) (k : Nat) :
    ((gid ≠ "" → gid ≠ "all" →
      (parseIntJS (strippedGroupSuffix gid) = none
        ∨ parseIntJS (strippedGroupSuffix gid) = some 0) →
      narrowPool (some gid) = mockAvatarPool.take 15))
    ∧ ((gid ≠ "" → gid ≠ "all" → 0 < k →
      parseIntJS (strippedGroupSuffix gid) = some (k : Int) →
      narrowPool (some gid)
        = (mockAvatarPool.drop ((k - 1) * 15)).take 15)) := by
  constructor
  · intro h1 h2 h3
    have hord : groupOrdinal gid = 1 := by
      unfold groupOrdinal jsOrDefault
      rcases h3 with h | h <;> simp [h]
    simp only [narrowPool]
    rw [if_pos ⟨h1, h2⟩, hord]
    norm_num
    have hsl := jsSlice_natCast mockAvatarPool 0 15
    simpa using hsl
  · intro h1 h2 hk hparse
    have hord : groupOrdinal gid = (k : Int) := by
      unfold groupOrdinal jsOrDefault
      rw [hparse]
      have hne : ¬ ((k : Int) = 0) := by
        simpa using Nat.pos_iff_ne_zero.mp hk
      simp [hne]
    simp only [narrowPool]
    rw [if_pos ⟨h1, h2⟩, hord]
    have hc1 : ((k : Int) - 1) * 15 = (((k - 1) * 15 : Nat) : Int) := by
      omega
    have hc2 : (((k - 1) * 15 : Nat) : Int) + 15
        = (((k - 1) * 15 + 15 : Nat) : Int) := by
      omega
    rw [hc1, hc2, jsSlice_natCast]
    congr 1
    omega

/-- Witness for C9: the identifiers some-group and group_0 both take the
first window, and group_2 takes the window at indices fifteen through
twenty-nine. -/
theorem mock_group_narrowing_witness :
    narrowPool (some "some-group") = mockAvatarPool.take 15
      ∧ narrowPool (some "group_0") = mockAvatarPool.take 15
      ∧ narrowPool (some "group_2") = (mockAvatarPool.drop 15).take 15 := by
  refine ⟨?_, ?_, ?_⟩
  · exact (mock_group_narrowing "some-group" 0).1 (by decide) (by decide)
      (Or.inl (by decide))
  · exact (mock_group_narrowing "group_0" 0).1 (by decide) (by decide)
      (Or.inr (by decide))
  · have h := (mock_group_narrowing "group_2" 2).2 (by decide) (by decide)
      (by decide) (by decide)
    simpa using h

/-- C10: a fallback page request whose start offset reaches past the
narrowed pool succeeds with an empty avatar list and a count of zero while
the total and page count still describe the whole narrowed pool, and the
returned page field echoes the requested page. -/
theorem mock_out_of_range_page_safe (p : PaginationParams)
    (g : Option String) (hp : 1 ≤ p.page)
    (hlen : (narrowPool g).length ≤ (p.page - 1) * p.page_size) :
    (getMockAvatarData p g).data.avatars = []
      ∧ (getMockAvatarData p g).data.count = 0
      ∧ (getMockAvatarData p g).data.total = (narrowPool g).length
      ∧ (getMockAvatarData p g).data.total_pages
          = jsCeilDiv (narrowPool g).length p.page_size
      ∧ (getMockAvatarData p g).data.page = p.page := by
  have hav : (getMockAvatarData p g).data.avatars
      = jsSlice (narrowPool g)
          (((p.page : Int) - 1) * (p.page_size : Int))
          (((p.page : Int) - 1) * (p.page_size : Int) + (p.page_size : Int)) := rfl
  have hcount : (getMockAvatarData p g).data.count
      = (getMockAvatarData p g).data.avatars.length := rfl
  have hc1 : ((p.page : Int) - 1) * (p.page_size : Int)
      = (((p.page - 1) * p.page_size : Nat) : Int) := by
    have h1 : ((p.page : Int) - 1) = ((p.page - 1 : Nat) : Int) := by omega
    rw [h1, ← Nat.cast_mul]
  have hc2 : (((p.page - 1) * p.page_size : Nat) : Int) + (p.page_size : Int)
      = (((p.page - 1) * p.page_size + p.page_size : Nat) : Int) := by
    omega
  have hnil : (getMockAvatarData p g).data.avatars = [] := by
    rw [hav, hc1, hc2, jsSlice_natCast, List.drop_eq_nil_of_le hlen]
    simp
  refine ⟨hnil, ?_, rfl, rfl, rfl⟩
  rw [hcount, hnil]
  rfl

/-- Witness for C10: page four of the unfiltered fifty-three entry pool is
past the end and comes back empty with the full pool described. -/
theorem mock_out_of_range_page_safe_witness :
    (getMockAvatarData { page := 4, page_size := 20 } none).data.avatars = []
      ∧ (getMockAvatarData { page := 4, page_size := 20 } none).data.count = 0
      ∧ (getMockAvatarData { page := 4, page_size := 20 } none).data.total = 53
      ∧ (getMockAvatarData { page := 4, page_size := 20 } none).data.total_pages = 3
      ∧ (getMockAvatarData { page := 4, page_size := 20 } none).data.page = 4 := by
  have h := mock_out_of_range_page_safe { page := 4, page_size := 20 } none
    (by decide) (by decide)
  refine ⟨h.1, h.2.1, ?_, ?_, h.2.2.2.2⟩
  · rw [h.2.2.1]
    rfl
  · rw [h.2.2.2.1]
    rfl

/-- C4 counterexample: while the groups fetch is still loading, changing
the selected group to a genuinely different value dispatches no avatars
fetch at all and leaves the current page untouched at two. -/
theorem group_change_while_loading_counterexample :
    loadingGroupsState.filters.selectedGroup ≠ some "group_2"
      ∧ (handleGroupChange loadingGroupsState (some "group_2")).2 = []
      ∧ (handleGroupChange loadingGroupsState (some "group_2")).1.currentPage = 2 := by
  exact ⟨by decide, rfl, rfl⟩

/-- C4 amended: once the groups fetch has completed, changing the selected
group to a different value through the filter handler, the group dropdown
handler or a group card dispatches exactly one page-one avatars fetch
scoped to the new group, and a successful resolution of that fetch sets
the current page back to one; while the groups are still loading no fetch
is dispatched. -/
theorem group_change_refetches (s : GalleryState) (g : Option String)
    (newFilters : FilterOptions) (resp : AvatarResponse)
    (hload : s.groupsLoading = false)
    (hg : g ≠ s.filters.selectedGroup)
    (hnf : newFilters.selectedGroup = g)
    (hresp : resp.error = none) :
    (handleFiltersChange s newFilters).2
        = [{ page := 1, page_size := s.pageSize, resetPage := true
           , groupId := g }]
      ∧ (handleGroupChange s g).2
        = [{ page := 1, page_size := s.pageSize, resetPage := true
           , groupId := g }]
      ∧ (∀ gid : String, g = some gid →
          (handleGroupSelect s gid).2
            = [{ page := 1, page_size := s.pageSize, resetPage := true
               , groupId := g }])
      ∧ (fetchAvatarsResolve (handleGroupChange s g).1
          { page := 1, page_size := s.pageSize, resetPage := true
          , groupId := g } resp).1.currentPage = 1 := by
  have hstep : ∀ nf : FilterOptions, nf.selectedGroup = g →
      setFiltersStep s nf
        = ({ s with filters := nf, loading := true, error := none }
          , [{ page := 1, page_size := s.pageSize, resetPage := true
             , groupId := g }]) := by
    intro nf hnfg
    unfold setFiltersStep fetchAvatarsStart
    rw [if_pos ⟨by rw [hnfg]; exact hg, by exact hload⟩]
    simp [hnfg]
  have h1 := hstep newFilters hnf
  have h2 := hstep { s.filters with selectedGroup := g } rfl
  refine ⟨?_, ?_, ?_, ?_⟩
  · rw [handleFiltersChange, h1]
  · rw [handleGroupChange, h2]
  · intro gid hgid
    unfold handleGroupSelect
    rw [← hgid, h2]
  · rw [handleGroupChange, h2]
    unfold fetchAvatarsResolve
    rw [hresp]
    rfl

/-- Witness for the amended C4 on the sample state with its groups loaded:
switching to group_2 dispatches one page-one fetch and a successful
resolution lands on page one. -/
theorem group_change_refetches_witness :
    (handleGroupChange sampleState (some "group_2")).2
        = [{ page := 1, page_size := sampleState.pageSize, resetPage := true
           , groupId := some "group_2" }]
      ∧ (fetchAvatarsResolve (handleGroupChange sampleState (some "group_2")).1
          { page := 1, page_size := sampleState.pageSize, resetPage := true
          , groupId := some "group_2" }
          (getMockAvatarData { page := 1, page_size := 20 } (some "group_2"))).1.currentPage
        = 1 := by
  have h := group_change_refetches sampleState (some "group_2")
    { sampleState.filters with selectedGroup := some "group_2" }
    (getMockAvatarData { page := 1, page_size := 20 } (some "group_2"))
    rfl (by decide) rfl rfl
  exact ⟨h.2.1, h.2.2.2⟩

/-- C7 counterexample: a logical failure of the groups fetch does not
preserve the previously held group list and records no error: the stored
list becomes empty while the error field stays untouched. -/
theorem groups_failure_counterexample :
    sampleState.groups ≠ []
      ∧ (fetchGroupsResolve sampleState
          { error := some "server rejected"
          , data := { avatar_groups := [], count := 0, total := 0 } }).1.groups = []
      ∧ (fetchGroupsResolve sampleState
          { error := some "server rejected"
          , data := { avatar_groups := [], count := 0, total := 0 } }).1.error = none := by
  exact ⟨by decide, rfl, rfl⟩

/-- C7 amended: a response with a non-null error field is a hard failure
with no automatic retry: for avatars it records the fixed error message and
leaves the avatar list and pagination state untouched; for groups it
silently replaces the group list with the empty list and leaves the
recorded error untouched. -/
theorem logical_failure_handling (s : GalleryState)
    (req : AvatarsFetchRequest) (resp : AvatarResponse)
    (gresp : AvatarGroupResponse) (e1 e2 : String)
    (h1 : resp.error = some e1) (h2 : gresp.error = some e2) :
    (fetchAvatarsResolve s req resp).1.avatars = s.avatars
      ∧ (fetchAvatarsResolve s req resp).1.currentPage = s.currentPage
      ∧ (fetchAvatarsResolve s req resp).1.totalPages = s.totalPages
      ∧ (fetchAvatarsResolve s req resp).1.totalItems = s.totalItems
      ∧ (fetchAvatarsResolve s req resp).1.error
          = some "Failed to fetch avatars from API"
      ∧ (fetchAvatarsResolve s req resp).2 = []
      ∧ (fetchGroupsResolve s gresp).1.groups = []
      ∧ (fetchGroupsResolve s gresp).1.error = s.error
      ∧ (fetchGroupsResolve s gresp).2 = [] := by
  unfold fetchAvatarsResolve fetchGroupsResolve
  rw [h1, h2]
  exact ⟨rfl, rfl, rfl, rfl, rfl, rfl, rfl, rfl, rfl⟩

/-- Witness for the amended C7 on the sample state with concrete logically
failing responses. -/
theorem logical_failure_handling_witness :
    (fetchAvatarsResolve sampleState
        { page := 2, page_size := 20, resetPage := false, groupId := none }
        { error := some "bad key"
        , data := { avatars := [], count := 0, total := 0, page := 2
                  , page_size := 20, total_pages := 0 } }).1.avatars
      = sampleState.avatars
      ∧ (fetchAvatarsResolve sampleState
          { page := 2, page_size := 20, resetPage := false, groupId := none }
          { error := some "bad key"
          , data := { avatars := [], count := 0, total := 0, page := 2
                    , page_size := 20, total_pages := 0 } }).2 = []
      ∧ (fetchGroupsResolve sampleState
          { error := some "bad key"
          , data := { avatar_groups := [], count := 0, total := 0 } }).1.groups
        = [] := by
  have h := logical_failure_handling sampleState
    { page := 2, page_size := 20, resetPage := false, groupId := none }
    { error := some "bad key"
    , data := { avatars := [], count := 0, total := 0, page := 2
              , page_size := 20, total_pages := 0 } }
    { error := some "bad key"
    , data := { avatar_groups := [], count := 0, total := 0 } }
    "bad key" "bad key" rfl rfl
  exact ⟨h.1, h.2.2.2.2.2.1, h.2.2.2.2.2.2.1⟩

end HeyGen
